import Mathlib

/-!
Shallow embedding of the data-acquisition pipeline of `src/app.py`
(Shaggy Tree River Watch): unit converters, the two upstream clients,
the SQLite-backed time-series store, and the top-level fetch/merge/store
script, together with theorems settling the specification claims.

Numeric values are modelled as exact rationals (`ℚ`); optional / nullable
values as `Option`; the SQLite table as a `List Row`; timestamps as the
ISO-8601 strings the program actually stores and compares
lexicographically.
-/

/-! ### Configuration constants (src/app.py lines 13-24) -/

def DEFAULT_SITE : String := "09429100"

def PARAM_GAGE_HEIGHT : String := "00065"

def PARAM_WATER_TEMP : String := "00010"

/-! ### Unit converters (src/app.py lines 29-31)

`def c_to_f(c): return (c * 9 / 5) + 32 if c is not None else None`
`def mps_to_mph(mps): return mps * 2.23694 if mps is not None else None`
-/

def c_to_f (c : Option ℚ) : Option ℚ :=
  match c with
  | some c => some (c * 9 / 5 + 32)
  | none => none

def mps_to_mph (mps : Option ℚ) : Option ℚ :=
  match mps with
  | some m => some (m * 2.23694)
  | none => none

/-! ### USGS gage client (src/app.py lines 71-90)

A parsed gage response is the list of time series under
`js["value"]["timeSeries"]`; of each series the loop body only reads
`s["variable"]["variableCode"][0]["value"]` (the parameter code) and
`s["values"][0]["value"][-1]` (the most recent value object, with its
`dateTime` and numeric `value`).  The loop body is

    ts = val["dateTime"]
    if code == PARAM_GAGE_HEIGHT: gh = float(val["value"])
    if code == PARAM_WATER_TEMP:  wt = float(val["value"])

note that `ts` is overwritten for EVERY series, matched or not.
-/

structure SeriesValue where
  dateTime : String
  value : ℚ
deriving DecidableEq

structure TimeSeries where
  code : String
  lastValue : SeriesValue
deriving DecidableEq

def usgsStep (acc : Option String × Option ℚ × Option ℚ) (s : TimeSeries) :
    Option String × Option ℚ × Option ℚ :=
  (some s.lastValue.dateTime,
   if s.code = PARAM_GAGE_HEIGHT then some s.lastValue.value else acc.2.1,
   if s.code = PARAM_WATER_TEMP then some s.lastValue.value else acc.2.2)

def fetch_usgs (series : List TimeSeries) : Option String × Option ℚ × Option ℚ :=
  series.foldl usgsStep (none, none, none)

/-! ### Open-Meteo weather client (src/app.py lines 92-102)

`cur = r.json()["current"]` followed by
`return cur["time"], cur["temperature_2m"], mps_to_mph(cur["wind_speed_10m"])`.
A missing key raises `KeyError` (a fatal parse failure caught only by the
top-level try block); keys are accessed left to right.
-/

structure WeatherCurrent where
  time : Option String
  temperature_2m : Option ℚ
  wind_speed_10m : Option ℚ
deriving DecidableEq

inductive AppError where
  | fetchError (msg : String)
  | keyError (key : String)
deriving DecidableEq

def fetch_weather (cur : WeatherCurrent) : Except AppError (String × ℚ × Option ℚ) :=
  match cur.time, cur.temperature_2m, cur.wind_speed_10m with
  | none, _, _ => Except.error (AppError.keyError "time")
  | some _, none, _ => Except.error (AppError.keyError "temperature_2m")
  | some _, some _, none => Except.error (AppError.keyError "wind_speed_10m")
  | some t, some temp, some ws => Except.ok (t, temp, mps_to_mph (some ws))

/-! ### Time-series store (src/app.py lines 36-66)

Table `readings(id INTEGER PRIMARY KEY, ts_utc TEXT, gage_height_ft REAL,
water_temp_c REAL, air_temp_c REAL, wind_mph REAL)`; every measurement
column nullable.  `store_row` inserts with `NULL` id, so SQLite assigns a
fresh rowid (one more than the current maximum).  `load_last_24h` runs
`SELECT * FROM readings WHERE ts_utc >= ? ORDER BY ts_utc` with the
cutoff string `(now(UTC) - 24h).isoformat()`: TEXT comparison is
lexicographic, and a NULL `ts_utc` never satisfies `ts_utc >= ?`.
-/

/-- SQLite compares two TEXT values with memcmp, i.e. lexicographically
byte by byte; `lexLe` is that comparison on the character list of a
string (all stored timestamps are ASCII, where the two orders agree). -/
def lexLe : List Char → List Char → Bool
  | [], _ => true
  | _ :: _, [] => false
  | a :: as, b :: bs =>
    if a < b then true
    else if b < a then false
    else lexLe as bs

def tsLe (a b : String) : Bool := lexLe a.data b.data

structure Row where
  id : Nat
  ts_utc : Option String
  gage_height_ft : Option ℚ
  water_temp_c : Option ℚ
  air_temp_c : Option ℚ
  wind_mph : Option ℚ
deriving DecidableEq

def nextId (rows : List Row) : Nat :=
  rows.foldl (fun m r => max m r.id) 0 + 1

def store_row (rows : List Row) (ts : Option String) (gh wt atc wind : Option ℚ) :
    List Row :=
  rows ++ [{ id := nextId rows, ts_utc := ts, gage_height_ft := gh,
             water_temp_c := wt, air_temp_c := atc, wind_mph := wind }]

def rowSelected (cutoff : String) (r : Row) : Bool :=
  match r.ts_utc with
  | none => false
  | some s => tsLe cutoff s

/-- The `ORDER BY ts_utc` order on rows (SQL NULL sorts before every
string; the query never returns a NULL-timestamp row anyway). -/
def rowLe (a b : Row) : Prop :=
  tsLe (a.ts_utc.getD "") (b.ts_utc.getD "") = true

instance : DecidableRel rowLe :=
  fun a b =>
    inferInstanceAs (Decidable (tsLe (a.ts_utc.getD "") (b.ts_utc.getD "") = true))

def load_last_24h (cutoff : String) (rows : List Row) : List Row :=
  List.insertionSort rowLe (rows.filter (rowSelected cutoff))

/-! ### Snapshot orchestration (src/app.py lines 136-166)

    try:
        ts_r, gh, wt = fetch_usgs()
        ts_w, at, wind = fetch_weather()
        ts = ts_r or ts_w
    except Exception as e:
        st.error(...); st.stop()
    ...
    if st.button("Fetch & store latest now"):
        store_row(ts, gh, wt, at, wind)

`ts_r or ts_w` is Python truthiness: `ts_w` is used when `ts_r` is `None`
OR the empty string.  On any exception from either fetch, `st.stop()`
ends the cycle: no reading is shown and no store write happens.
-/

structure Reading where
  timestamp : Option String
  gage_height_ft : Option ℚ
  water_temp_c : Option ℚ
  air_temp_c : Option ℚ
  wind_mph : Option ℚ
deriving DecidableEq

def pyOrStr (a : Option String) (b : String) : String :=
  match a with
  | none => b
  | some s => if s = "" then b else s

def mergeReading (g : Option String × Option ℚ × Option ℚ)
    (w : String × ℚ × Option ℚ) : Reading :=
  { timestamp := some (pyOrStr g.1 w.1)
    gage_height_ft := g.2.1
    water_temp_c := g.2.2
    air_temp_c := some w.2.1
    wind_mph := w.2.2 }

inductive NetEvent where
  | usgsRequest
  | weatherRequest
deriving DecidableEq

/-- One refresh cycle of the script: the HTTP layer of each client is
modelled as an `Except` (transport/HTTP failure or a parsed body); the
result is the ordered list of HTTP requests issued, the store after the
cycle, the displayed merged reading (none when the cycle stopped), and
the surfaced error (none on success). -/
def runApp (gageHttp : Except AppError (List TimeSeries))
    (weatherHttp : Except AppError WeatherCurrent)
    (button : Bool) (store : List Row) :
    List NetEvent × List Row × Option Reading × Option AppError :=
  match gageHttp with
  | Except.error e => ([NetEvent.usgsRequest], store, none, some e)
  | Except.ok series =>
    match weatherHttp with
    | Except.error e =>
        ([NetEvent.usgsRequest, NetEvent.weatherRequest], store, none, some e)
    | Except.ok cur =>
      match fetch_weather cur with
      | Except.error e =>
          ([NetEvent.usgsRequest, NetEvent.weatherRequest], store, none, some e)
      | Except.ok w =>
        let r := mergeReading (fetch_usgs series) w
        ([NetEvent.usgsRequest, NetEvent.weatherRequest],
         if button then
           store_row store r.timestamp r.gage_height_ft r.water_temp_c
             r.air_temp_c r.wind_mph
         else store,
         some r,
         none)

/-! ### Order facts about the lexicographic comparison -/

theorem lexLe_refl : ∀ l : List Char, lexLe l l = true := by
  intro l
  induction l with
  | nil => rfl
  | cons a as ih => simp [lexLe, ih]

theorem lexLe_total : ∀ l₁ l₂ : List Char, lexLe l₁ l₂ = true ∨ lexLe l₂ l₁ = true := by
  intro l₁
  induction l₁ with
  | nil => intro l₂; left; rfl
  | cons a as ih =>
    intro l₂
    cases l₂ with
    | nil => right; rfl
    | cons b bs =>
      rcases lt_trichotomy a b with h | h | h
      · left; simp [lexLe, h]
      · subst h
        rcases ih bs with h2 | h2
        · left; simp [lexLe, h2]
        · right; simp [lexLe, h2]
      · right; simp [lexLe, h]

theorem lexLe_trans : ∀ l₁ l₂ l₃ : List Char,
    lexLe l₁ l₂ = true → lexLe l₂ l₃ = true → lexLe l₁ l₃ = true := by
  intro l₁
  induction l₁ with
  | nil => intro l₂ l₃ _ _; rfl
  | cons a as ih =>
    intro l₂ l₃ h12 h23
    cases l₂ with
    | nil => simp [lexLe] at h12
    | cons b bs =>
      cases l₃ with
      | nil => simp [lexLe] at h23
      | cons c cs =>
        rcases lt_trichotomy a b with hab | hab | hab
        · rcases lt_trichotomy b c with hbc | hbc | hbc
          · simp [lexLe, lt_trans hab hbc]
          · subst hbc; simp [lexLe, hab]
          · exfalso
            simp [lexLe, hbc, not_lt_of_lt hbc] at h23
        · subst hab
          rcases lt_trichotomy a c with hac | hac | hac
          · simp [lexLe, hac]
          · subst hac
            simp [lexLe, lt_irrefl] at h12 h23 ⊢
            exact ih bs cs h12 h23
          · exfalso
            simp [lexLe, hac, not_lt_of_lt hac] at h23
        · exfalso
          simp [lexLe, hab, not_lt_of_lt hab] at h12

instance : IsTotal Row rowLe :=
  ⟨fun a b => lexLe_total (a.ts_utc.getD "").data (b.ts_utc.getD "").data⟩

instance : IsTrans Row rowLe :=
  ⟨fun _ _ _ hab hbc => lexLe_trans _ _ _ hab hbc⟩

/-! ### Helper lemmas about fetch_usgs -/

theorem foldl_usgsStep_fst (init : Option String × Option ℚ × Option ℚ) :
    ∀ series : List TimeSeries,
      (series.foldl usgsStep init).1 =
        Option.rec init.1 (fun s => some s.lastValue.dateTime) series.getLast? := by
  intro series
  induction series using List.reverseRecOn with
  | nil => rfl
  | append_singleton l s ih => simp [List.foldl_append, usgsStep]

/-- The timestamp returned by `fetch_usgs` is the `dateTime` of the last
series of the response, whatever its variable code, and is absent exactly
when the series collection is empty. -/
theorem fetch_usgs_ts (series : List TimeSeries) :
    (fetch_usgs series).1 =
      Option.map (fun s => s.lastValue.dateTime) series.getLast? := by
  have h := foldl_usgsStep_fst (none, none, none) series
  cases hg : series.getLast? with
  | none => simpa [hg] using h
  | some s => simpa [hg] using h

theorem foldl_usgsStep_gh (init : Option String × Option ℚ × Option ℚ) :
    ∀ series : List TimeSeries,
      (∀ s ∈ series, s.code ≠ PARAM_GAGE_HEIGHT) →
      (series.foldl usgsStep init).2.1 = init.2.1 := by
  intro series
  induction series generalizing init with
  | nil => intro _; rfl
  | cons s rest ih =>
    intro h
    have hs : s.code ≠ PARAM_GAGE_HEIGHT := h s (List.mem_cons_self s rest)
    have hrest : ∀ t ∈ rest, t.code ≠ PARAM_GAGE_HEIGHT :=
      fun t ht => h t (List.mem_cons_of_mem s ht)
    simpa [usgsStep, hs] using ih (usgsStep init s) hrest

theorem foldl_usgsStep_wt (init : Option String × Option ℚ × Option ℚ) :
    ∀ series : List TimeSeries,
      (∀ s ∈ series, s.code ≠ PARAM_WATER_TEMP) →
      (series.foldl usgsStep init).2.2 = init.2.2 := by
  intro series
  induction series generalizing init with
  | nil => intro _; rfl
  | cons s rest ih =>
    intro h
    have hs : s.code ≠ PARAM_WATER_TEMP := h s (List.mem_cons_self s rest)
    have hrest : ∀ t ∈ rest, t.code ≠ PARAM_WATER_TEMP :=
      fun t ht => h t (List.mem_cons_of_mem s ht)
    simpa [usgsStep, hs] using ih (usgsStep init s) hrest

/-! ### Claim theorems -/

/-- Claim C1 (amended): for the gage response with a gage-height series
(512.3 at T1) and a water-temperature series (18.5 at T2 > T1) and the
weather response (T3, 30.0 °C, 4.0 m/s), the refresh cycle displays
timestamp T2, gageHeightFt 512.3, waterTempC 18.5, airTempC 30.0 and
windMph = 4.0 * 2.23694 = 8.94776; in general the timestamp returned by
the gage fetch is the dateTime of the last-iterated series REGARDLESS of
whether its variable code matched (absent only for an empty collection). -/
theorem C1_fetch_current :
    (runApp
        (Except.ok [⟨PARAM_GAGE_HEIGHT, ⟨"2024-06-01T10:00:00Z", 512.3⟩⟩,
                    ⟨PARAM_WATER_TEMP, ⟨"2024-06-01T10:15:00Z", 18.5⟩⟩])
        (Except.ok ⟨some "2024-06-01T10:30:00Z", some 30, some 4⟩)
        false []).2.2.1 =
      some { timestamp := some "2024-06-01T10:15:00Z",
             gage_height_ft := some 512.3,
             water_temp_c := some 18.5,
             air_temp_c := some 30,
             wind_mph := some 8.94776 } ∧
    ∀ series : List TimeSeries,
      (fetch_usgs series).1 =
        Option.map (fun s => s.lastValue.dateTime) series.getLast? := by
  constructor
  · have : ((4 : ℚ) * 2.23694) = 8.94776 := by norm_num
    simp [runApp, fetch_weather, fetch_usgs, usgsStep, mergeReading, pyOrStr,
          mps_to_mph, PARAM_GAGE_HEIGHT, PARAM_WATER_TEMP, this]
  · exact fetch_usgs_ts

/-- Claim C1, counterexample to the original wording: in a response whose
last series has a non-matching code ("00060"), the returned timestamp is
that last series' dateTime, not the timestamp of the last-iterated
MATCHED series (the gage-height series at 10:00). -/
theorem C1_counterexample :
    (fetch_usgs [⟨PARAM_GAGE_HEIGHT, ⟨"2024-06-01T10:00:00Z", 512.3⟩⟩,
                 ⟨"00060", ⟨"2024-06-01T10:15:00Z", 250⟩⟩]).1 =
      some "2024-06-01T10:15:00Z" ∧
    (some "2024-06-01T10:15:00Z" : Option String) ≠ some "2024-06-01T10:00:00Z" := by
  constructor
  · rfl
  · simp

/-- Claim C2 (amended): when no series of a successfully parsed gage
response has a matching variable code, gageHeightFt and waterTempC are
absent and no error is raised, but the returned timestamp is the
dateTime of the last series — it is absent only when the series
collection itself is empty. -/
theorem C2_no_matching_series (series : List TimeSeries)
    (h : ∀ s ∈ series, s.code ≠ PARAM_GAGE_HEIGHT ∧ s.code ≠ PARAM_WATER_TEMP) :
    (fetch_usgs series).2.1 = none ∧ (fetch_usgs series).2.2 = none ∧
    (fetch_usgs series).1 =
      Option.map (fun s => s.lastValue.dateTime) series.getLast? :=
  ⟨foldl_usgsStep_gh _ series (fun s hs => (h s hs).1),
   foldl_usgsStep_wt _ series (fun s hs => (h s hs).2),
   fetch_usgs_ts series⟩

/-- Claim C2, witness: a one-series response with non-matching code
"00060" yields absent gage height and water temperature. -/
theorem C2_witness :
    (fetch_usgs [⟨"00060", ⟨"2024-06-01T10:00:00Z", 250⟩⟩]).2.1 = none ∧
    (fetch_usgs [⟨"00060", ⟨"2024-06-01T10:00:00Z", 250⟩⟩]).2.2 = none ∧
    (fetch_usgs [⟨"00060", ⟨"2024-06-01T10:00:00Z", 250⟩⟩]).1 =
      Option.map (fun s => s.lastValue.dateTime)
        ([⟨"00060", ⟨"2024-06-01T10:00:00Z", 250⟩⟩] : List TimeSeries).getLast? :=
  C2_no_matching_series _ (by decide)

/-- Claim C2, counterexample to the original wording: a parsed response
with one non-matching series returns gageHeightFt and waterTempC absent
but the timestamp PRESENT (the last series' dateTime), contradicting
"all three return values are absent". -/
theorem C2_counterexample :
    fetch_usgs [⟨"00060", ⟨"2024-06-02T09:00:00Z", 250⟩⟩] =
      (some "2024-06-02T09:00:00Z", none, none) ∧
    (some "2024-06-02T09:00:00Z" : Option String) ≠ none := by
  constructor
  · rfl
  · simp

/-- Claim C7: a structurally valid weather response that lacks
current.time, current.temperature_2m or current.wind_speed_10m makes the
weather fetch fail with an error (the KeyError of the missing key); it
never returns a result treating those fields as absent. -/
theorem C7_missing_weather_field (cur : WeatherCurrent)
    (h : cur.time = none ∨ cur.temperature_2m = none ∨ cur.wind_speed_10m = none) :
    ∃ e, fetch_weather cur = Except.error e := by
  rcases cur with ⟨t, temp, ws⟩
  cases t with
  | none => exact ⟨AppError.keyError "time", rfl⟩
  | some t =>
    cases temp with
    | none => exact ⟨AppError.keyError "temperature_2m", rfl⟩
    | some temp =>
      cases ws with
      | none => exact ⟨AppError.keyError "wind_speed_10m", rfl⟩
      | some ws => simp at h

/-- Claim C7, witness: a weather body missing current.time errors. -/
theorem C7_witness :
    ∃ e, fetch_weather ⟨none, some 30, some 4⟩ = Except.error e :=
  C7_missing_weather_field ⟨none, some 30, some 4⟩ (Or.inl rfl)

/-- Claim C8: the Celsius-to-Fahrenheit converter returns exactly
c * 9 / 5 + 32 on a present input and absent on an absent input; in
particular it maps 0 to 32 and absent to absent. -/
theorem C8_c_to_f :
    (∀ c : ℚ, c_to_f (some c) = some (c * 9 / 5 + 32)) ∧
    c_to_f none = none ∧ c_to_f (some 0) = some 32 := by
  refine ⟨fun c => rfl, rfl, ?_⟩
  show some ((0 : ℚ) * 9 / 5 + 32) = some 32
  norm_num

/-- Claim C3: for any store contents and any cutoff, the 24-hour query
returns a result sorted ascending by timestamp that is exactly (a
permutation of) the rows passing the timestamp-range test, and the query
on an empty table returns the empty sequence rather than an error. -/
theorem C3_query_window (cutoff : String) (rows : List Row) :
    List.Sorted rowLe (load_last_24h cutoff rows) ∧
    List.Perm (load_last_24h cutoff rows) (rows.filter (rowSelected cutoff)) ∧
    load_last_24h cutoff [] = [] :=
  ⟨List.sorted_insertionSort rowLe _, List.perm_insertionSort rowLe _, rfl⟩

/-- Claim C9: a row whose timestamp is NULL is never returned by the
24-hour query, for any cutoff and any store contents: `ts_utc >= ?` is
never satisfied by a NULL timestamp. -/
theorem C9_null_timestamp_excluded (cutoff : String) (rows : List Row) (r : Row)
    (h : r.ts_utc = none) : r ∉ load_last_24h cutoff rows := by
  intro hmem
  have hf : r ∈ rows.filter (rowSelected cutoff) :=
    (List.Perm.mem_iff (List.perm_insertionSort rowLe _)).mp hmem
  have hsel : rowSelected cutoff r = true := (List.mem_filter.mp hf).2
  simp [rowSelected, h] at hsel

/-- Claim C9, witness: a stored row with NULL timestamp is absent from
the query result even when it is the only row in the table. -/
theorem C9_witness :
    ({ id := 1, ts_utc := none, gage_height_ft := some 512.3,
       water_temp_c := none, air_temp_c := none, wind_mph := none } : Row) ∉
      load_last_24h "2025-01-01T00:00:00+00:00"
        [{ id := 1, ts_utc := none, gage_height_ft := some 512.3,
           water_temp_c := none, air_temp_c := none, wind_mph := none }] :=
  C9_null_timestamp_excluded _ _ _ rfl

/-- Claim C6 (amended): for every reading whose timestamp is present and
within the window (cutoff ≤ timestamp in the store's lexicographic
comparison), appending it to an empty store and querying returns exactly
one record with id 1 and the reading's five fields, null measurement
fields preserved as null. -/
theorem C6_append_then_query (cutoff ts : String) (gh wt atc wind : Option ℚ)
    (h : tsLe cutoff ts = true) :
    load_last_24h cutoff (store_row [] (some ts) gh wt atc wind) =
      [{ id := 1, ts_utc := some ts, gage_height_ft := gh,
         water_temp_c := wt, air_temp_c := atc, wind_mph := wind }] := by
  simp [load_last_24h, store_row, nextId, rowSelected, h,
        List.insertionSort, List.orderedInsert]

/-- Claim C6, witness: a reading with present in-window timestamp, a gage
height, and null water temperature, air temperature and wind comes back
as exactly that one record, nulls intact. -/
theorem C6_witness :
    load_last_24h "2025-06-01T00:00:00+00:00"
      (store_row [] (some "2025-06-02T12:00:00+00:00") (some 512.3) none none none) =
      [{ id := 1, ts_utc := some "2025-06-02T12:00:00+00:00",
         gage_height_ft := some 512.3, water_temp_c := none,
         air_temp_c := none, wind_mph := none }] :=
  C6_append_then_query _ _ _ _ _ _ (by decide)

/-- Claim C6, counterexample to the original wording: appending a reading
with an absent timestamp (or one older than the 24-hour cutoff) to an
empty store and querying returns zero records, not "exactly one record"
as claimed for every reading. -/
theorem C6_counterexample :
    load_last_24h "2025-01-01T00:00:00+00:00"
      (store_row [] none (some 512.3) (some 18.5) none none) = [] ∧
    load_last_24h "2025-01-01T00:00:00+00:00"
      (store_row [] (some "2020-06-01T00:00:00+00:00") (some 512.3) none none none) = [] ∧
    ([] : List Row).length ≠ 1 := by
  refine ⟨rfl, rfl, ?_⟩
  simp

/-- Claim C5 (amended): the merged reading's timestamp is the gage
timestamp whenever that is present AND non-empty, and the weather
timestamp when the gage timestamp is absent or the empty string (Python
`ts_r or ts_w` truthiness); the other four fields pass through from
their respective fetch results unchanged. -/
theorem C5_merge_fields (g : Option String × Option ℚ × Option ℚ)
    (w : String × ℚ × Option ℚ) :
    ((∀ s : String, g.1 = some s → s ≠ "" → (mergeReading g w).timestamp = some s) ∧
     (g.1 = none ∨ g.1 = some "" → (mergeReading g w).timestamp = some w.1)) ∧
    (mergeReading g w).gage_height_ft = g.2.1 ∧
    (mergeReading g w).water_temp_c = g.2.2 ∧
    (mergeReading g w).air_temp_c = some w.2.1 ∧
    (mergeReading g w).wind_mph = w.2.2 := by
  refine ⟨⟨?_, ?_⟩, rfl, rfl, rfl, rfl⟩
  · intro s hs hne
    simp [mergeReading, pyOrStr, hs, hne]
  · intro h
    rcases h with h | h <;> simp [mergeReading, pyOrStr, h]

/-- Claim C5, witness: with a present non-empty gage timestamp the merge
keeps it, and the gage height passes through unchanged. -/
theorem C5_witness :
    (mergeReading (some "2024-06-01T10:15:00Z", some 512.3, some 18.5)
        ("2024-06-01T10:30:00Z", 30, some 8.94776)).timestamp =
      some "2024-06-01T10:15:00Z" ∧
    (mergeReading (some "2024-06-01T10:15:00Z", some 512.3, some 18.5)
        ("2024-06-01T10:30:00Z", 30, some 8.94776)).gage_height_ft =
      some 512.3 :=
  ⟨(C5_merge_fields _ _).1.1 _ rfl (by simp), (C5_merge_fields _ _).2.1⟩

/-- Claim C5, counterexample to the original wording: a present gage
timestamp that is the empty string is NOT used — Python `or` treats it
as falsy and the merged timestamp is the weather timestamp instead. -/
theorem C5_counterexample :
    (mergeReading (some "", some 512.3, none)
        ("2024-06-01T10:30:00Z", 30, some 2)).timestamp =
      some "2024-06-01T10:30:00Z" ∧
    (some "2024-06-01T10:30:00Z" : Option String) ≠ some "" ∧
    (some "" : Option String) ≠ none := by
  refine ⟨rfl, ?_, ?_⟩ <;> simp

/-- Claim C4: if either upstream HTTP call fails, the cycle fails as a
unit: the error is surfaced, no merged reading is produced, and the
store is left unchanged whatever the button state. -/
theorem C4_fetch_failure_no_write (e : AppError) (w : Except AppError WeatherCurrent)
    (series : List TimeSeries) (button : Bool) (store : List Row) :
    runApp (Except.error e) w button store =
      ([NetEvent.usgsRequest], store, none, some e) ∧
    runApp (Except.ok series) (Except.error e) button store =
      ([NetEvent.usgsRequest, NetEvent.weatherRequest], store, none, some e) :=
  ⟨rfl, rfl⟩

/-- Claim C10: when the gage fetch fails the cycle issues no weather
request at all, and when the gage fetch succeeds the weather request is
issued after the gage request. -/
theorem C10_weather_after_gage (e : AppError) (w : Except AppError WeatherCurrent)
    (button : Bool) (store : List Row) :
    (runApp (Except.error e) w button store).1 = [NetEvent.usgsRequest] ∧
    NetEvent.weatherRequest ∉ (runApp (Except.error e) w button store).1 ∧
    ∀ series : List TimeSeries,
      (runApp (Except.ok series) w button store).1 =
        [NetEvent.usgsRequest, NetEvent.weatherRequest] := by
  refine ⟨rfl, by simp [runApp], ?_⟩
  intro series
  cases w with
  | error e2 => rfl
  | ok cur =>
    cases hfw : fetch_weather cur with
    | error e2 => simp [runApp, hfw]
    | ok v => simp [runApp, hfw]
